import Mathlib

/-!
Verification of the Langtang DEM download script (`dem/srtm.py`).

The script is embedded shallowly: pure helpers become Lean functions; the
file system is explicit state (a map from path to stored bytes); each HTTP
request is modelled by its response (status code, body, and — for the direct
fetcher — the archive members that `zipfile` parses out of the body); Python
exceptions become `Except` values.  Machine integers never overflow in this
script (statuses, coordinates, 16-bit samples), so `Nat`/`Int` model them
directly; the signed 16-bit decode applies the two's-complement correction
explicitly.
-/

/-- Python conversion of a natural number under the format spec `0Nd`:
decimal digits left-padded with zeros to a minimum width `w`.  The width is a
minimum, not an exact width: numbers with more than `w` digits keep all their
digits. -/
def pyFmt0d (w : Nat) (n : Nat) : String :=
  let s := toString n
  String.mk (List.replicate (w - s.length) '0') ++ s

/-- Embedding of `tile_name(lat, lon)`:
hemisphere letter (nonnegative latitude is N, nonnegative longitude is E)
followed by `abs(lat)` formatted `02d` and `abs(lon)` formatted `03d`. -/
def tile_name (lat lon : Int) : String :=
  let ns := if 0 ≤ lat then "N" else "S"
  let ew := if 0 ≤ lon then "E" else "W"
  ns ++ pyFmt0d 2 lat.natAbs ++ ew ++ pyFmt0d 3 lon.natAbs

theorem pyFmt0d_length (w n : Nat) (h : (toString n).length ≤ w) :
    (pyFmt0d w n).length = w := by
  simp only [pyFmt0d, String.length_append, String.length_mk, List.length_replicate]
  omega

theorem toString_nat_length_le_two : ∀ n < 100, (toString n).length ≤ 2 := by decide

set_option maxRecDepth 4000 in
theorem toString_nat_length_le_three : ∀ n < 1000, (toString n).length ≤ 3 := by decide

/-- C9 as stated fails: latitude 123 formats with three digits, because the
Python `02d` pad is a minimum width.  There is no decomposition of
`tile_name 123 85` into a hemisphere letter, an exactly-2-digit latitude
field, a hemisphere letter and an exactly-3-digit longitude field. -/
theorem claim_C9_counterexample :
    tile_name 123 85 = "N123E085" ∧
    ¬ ∃ a b : String, tile_name 123 85 = "N" ++ a ++ "E" ++ b ∧
        a.length = 2 ∧ b.length = 3 := by
  refine ⟨by decide, ?_⟩
  rintro ⟨a, b, h, ha, hb⟩
  have h8 : (tile_name 123 85).length = 8 := by decide
  rw [h] at h8
  have hN : ("N" : String).length = 1 := rfl
  have hE : ("E" : String).length = 1 := rfl
  simp [String.length_append, ha, hb, hN, hE] at h8

/-- C9 (amended): `tile_name` is a pure total function returning
`{N|S}{abs lat, zero-padded to at least 2 digits}{E|W}{abs lon, zero-padded to
at least 3 digits}`, with N for `lat ≥ 0` and E for `lon ≥ 0`; the fields have
exactly 2 and 3 digits whenever `|lat| < 100` and `|lon| < 1000` (which covers
all real latitudes and longitudes), and the three documented examples hold. -/
theorem claim_C9 :
    (∀ lat lon : Int, lat.natAbs < 100 → lon.natAbs < 1000 →
      ∃ a b : String,
        tile_name lat lon =
          (if 0 ≤ lat then "N" else "S") ++ a ++ (if 0 ≤ lon then "E" else "W") ++ b ∧
        a = pyFmt0d 2 lat.natAbs ∧ b = pyFmt0d 3 lon.natAbs ∧
        a.length = 2 ∧ b.length = 3) ∧
    tile_name 28 85 = "N28E085" ∧
    tile_name (-5) (-70) = "S05W070" ∧
    tile_name 0 0 = "N00E000" := by
  refine ⟨?_, by decide, by decide, by decide⟩
  intro lat lon hlat hlon
  refine ⟨pyFmt0d 2 lat.natAbs, pyFmt0d 3 lon.natAbs, ?_, rfl, rfl, ?_, ?_⟩
  · simp [tile_name]
  · exact pyFmt0d_length 2 lat.natAbs (toString_nat_length_le_two lat.natAbs hlat)
  · exact pyFmt0d_length 3 lon.natAbs (toString_nat_length_le_three lon.natAbs hlon)

/-- Closed instance of the amended C9 at the tile the script actually uses. -/
theorem claim_C9_witness :
    ∃ a b : String,
      tile_name 28 85 =
        (if 0 ≤ (28 : Int) then "N" else "S") ++ a ++
          (if 0 ≤ (85 : Int) then "E" else "W") ++ b ∧
      a = pyFmt0d 2 (28 : Int).natAbs ∧ b = pyFmt0d 3 (85 : Int).natAbs ∧
      a.length = 2 ∧ b.length = 3 :=
  claim_C9.1 28 85 (by decide) (by decide)

/-- File-system state: maps a path to the bytes stored there, `none` when the
path does not exist.  All file operations in the script go through this map. -/
abbrev FS : Type := String → Option (List Nat)

def FS.write (fs : FS) (p : String) (b : List Nat) : FS :=
  fun q => if q = p then some b else fs q

def FS.remove (fs : FS) (p : String) : FS :=
  fun q => if q = p then none else fs q

def FS.empty : FS := fun _ => none

/-- Embedding of `os.path.dirname` for the ordinary relative paths this script
uses: everything before the last slash, the empty string when there is no
slash. -/
def dirname (s : String) : String :=
  String.mk ((s.data.reverse.dropWhile (fun c => c ≠ '/')).drop 1).reverse

/-- Target path of a zip member extracted to directory `d`
(`os.path.join(d, n)` for the relative member names zipfile produces). -/
def joinPath (d n : String) : String :=
  if d = "" then n else d ++ "/" ++ n

/-- The direct-download URL built by `download_srtm_aws`. -/
def srtm_url (lat lon : Int) : String :=
  "https://srtm.kurviger.de/SRTM1/" ++ tile_name lat lon ++ ".hgt.zip"

/-- Embedding of `requests` streaming: `r.iter_content(1024)` yields the body
split into successive chunks of at most 1024 bytes. -/
def chunks1024 : List Nat → List (List Nat)
  | [] => []
  | x :: xs => (x :: xs).take 1024 :: chunks1024 ((x :: xs).drop 1024)
termination_by l => l.length
decreasing_by simp; omega

theorem chunks1024_flatten (l : List Nat) : (chunks1024 l).flatten = l := by
  induction l using chunks1024.induct with
  | case1 => simp [chunks1024]
  | case2 x xs ih =>
      rw [chunks1024]
      simp only [List.flatten_cons, ih]
      exact List.take_append_drop 1024 (x :: xs)

/-- Embedding of `zipfile.ZipFile(...).extractall(dir)`: each archive member
`(name, bytes)` is written, in order, at `os.path.join(dir, name)`. -/
def extractAll (dir : String) (members : List (String × List Nat)) (fs : FS) : FS :=
  members.foldl (fun acc m => acc.write (joinPath dir m.1) m.2) fs

/-- The content extraction leaves at path `p`: the body of the last archive
member whose extraction target is `p`, if any. -/
def lastWrite (dir : String) (members : List (String × List Nat)) (p : String) :
    Option (List Nat) :=
  members.foldl (fun acc m => if joinPath dir m.1 = p then some m.2 else acc) none

/-- Embedding of `download_srtm_aws(lat, lon, out_path)`.  The HTTP layer is
modelled by the response status and body, and `members` is the archive
content that `zipfile` parses out of the body on the success path.  Returns
the Python return value, the resulting file system, and the printed log
lines. -/
def download_srtm_aws (lat lon : Int) (status : Nat) (body : List Nat)
    (members : List (String × List Nat)) (out_path : String) (fs : FS) :
    Bool × FS × List String :=
  let log0 := ["Trying direct SRTM download: " ++ srtm_url lat lon]
  if status ≠ 200 then
    (false, fs, log0 ++ ["Direct download failed."])
  else
    let zip_path := out_path ++ ".zip"
    let fs1 := fs.write zip_path (chunks1024 body).flatten
    let fs2 := extractAll (dirname out_path) members fs1
    let fs3 := fs2.remove zip_path
    (true, fs3, log0 ++ ["Direct SRTM download successful."])

theorem foldl_lastWrite (dir p : String) (ms : List (String × List Nat)) :
    ∀ a : Option (List Nat),
      ms.foldl (fun acc m => if joinPath dir m.1 = p then some m.2 else acc) a =
        (ms.foldl (fun acc m => if joinPath dir m.1 = p then some m.2 else acc) none).or a := by
  induction ms with
  | nil => intro a; rfl
  | cons m ms ih =>
      intro a
      simp only [List.foldl_cons]
      rw [ih (if joinPath dir m.1 = p then some m.2 else a),
        ih (if joinPath dir m.1 = p then some m.2 else none)]
      by_cases hm : joinPath dir m.1 = p
      · simp only [hm, if_true]
        cases hL : ms.foldl (fun acc m => if joinPath dir m.1 = p then some m.2 else acc) none with
        | none => simp
        | some x => simp
      · simp only [hm, if_false, Option.or_none]

theorem lastWrite_cons (dir p : String) (m : String × List Nat)
    (ms : List (String × List Nat)) :
    lastWrite dir (m :: ms) p =
      (lastWrite dir ms p).or (if joinPath dir m.1 = p then some m.2 else none) := by
  simp only [lastWrite, List.foldl_cons]
  rw [foldl_lastWrite]

theorem extractAll_apply (dir : String) (ms : List (String × List Nat)) (fs : FS)
    (p : String) :
    extractAll dir ms fs p = (lastWrite dir ms p).or (fs p) := by
  induction ms generalizing fs with
  | nil => simp [extractAll, lastWrite]
  | cons m ms ih =>
      show extractAll dir ms (fs.write (joinPath dir m.1) m.2) p = _
      rw [ih, lastWrite_cons, Option.or_assoc]
      congr 1
      by_cases hm : joinPath dir m.1 = p
      · simp [FS.write, hm]
      · simp [FS.write, hm, Ne.symm hm]

theorem lastWrite_eq_none_iff (dir : String) (ms : List (String × List Nat))
    (p : String) :
    lastWrite dir ms p = none ↔ ∀ m ∈ ms, joinPath dir m.1 ≠ p := by
  induction ms with
  | nil => simp [lastWrite]
  | cons m ms ih =>
      rw [lastWrite_cons, Option.or_eq_none, ih]
      constructor
      · rintro ⟨h1, h2⟩ m2 hm2
        rcases hm2 with _ | hm2
        · intro hc; simp [hc] at h2
        · exact h1 m2 (by assumption)
      · intro h
        refine ⟨fun m2 hm2 => h m2 (List.mem_cons_of_mem m hm2), ?_⟩
        simp [h m (List.mem_cons_self m ms)]

theorem download_srtm_aws_200 (lat lon : Int) (body : List Nat)
    (members : List (String × List Nat)) (out_path : String) (fs : FS) :
    download_srtm_aws lat lon 200 body members out_path fs =
      (true,
       (extractAll (dirname out_path) members
           (fs.write (out_path ++ ".zip") (chunks1024 body).flatten)).remove
         (out_path ++ ".zip"),
       ["Trying direct SRTM download: " ++ srtm_url lat lon,
        "Direct SRTM download successful."]) := by
  simp [download_srtm_aws]

theorem joinPath_empty (n : String) : joinPath "" n = n := by
  simp [joinPath]

/-- C1: on a non-200 response, `download_srtm_aws` returns `False`, logs the
failure, raises nothing and leaves the file system untouched; on a 200
response it writes the body (the 1024-byte chunks concatenated in order) to
the temporary file `out_path + ".zip"`, extracts the archive members into the
directory of `out_path`, deletes the temporary file, logs success and returns
`True`.  The extraction clauses: the temporary file is absent afterwards,
paths no member maps to are unchanged, and a path some member maps to holds
the last such member's bytes. -/
theorem claim_C1 (lat lon : Int) (status : Nat) (body : List Nat)
    (members : List (String × List Nat)) (out_path : String) (fs : FS) :
    (status ≠ 200 →
      download_srtm_aws lat lon status body members out_path fs =
        (false, fs,
         ["Trying direct SRTM download: " ++ srtm_url lat lon,
          "Direct download failed."])) ∧
    (status = 200 →
      (download_srtm_aws lat lon status body members out_path fs).1 = true ∧
      (download_srtm_aws lat lon status body members out_path fs).2.1
          (out_path ++ ".zip") = none ∧
      (fs.write (out_path ++ ".zip") (chunks1024 body).flatten)
          (out_path ++ ".zip") = some body ∧
      (∀ p, p ≠ out_path ++ ".zip" →
        (∀ m ∈ members, joinPath (dirname out_path) m.1 ≠ p) →
        (download_srtm_aws lat lon status body members out_path fs).2.1 p = fs p) ∧
      (∀ p, p ≠ out_path ++ ".zip" →
        lastWrite (dirname out_path) members p ≠ none →
        (download_srtm_aws lat lon status body members out_path fs).2.1 p =
          lastWrite (dirname out_path) members p) ∧
      (download_srtm_aws lat lon status body members out_path fs).2.2 =
        ["Trying direct SRTM download: " ++ srtm_url lat lon,
         "Direct SRTM download successful."]) := by
  constructor
  · intro h
    simp [download_srtm_aws, h]
  · intro h
    subst h
    rw [download_srtm_aws_200]
    refine ⟨rfl, ?_, ?_, ?_, ?_, rfl⟩
    · simp [FS.remove]
    · simp [FS.write, chunks1024_flatten]
    · intro p hp hnm
      simp only [FS.remove, if_neg hp]
      rw [extractAll_apply, (lastWrite_eq_none_iff _ _ _).mpr hnm, Option.none_or]
      simp [FS.write, hp]
    · intro p hp hlw
      simp only [FS.remove, if_neg hp]
      rw [extractAll_apply]
      cases hl : lastWrite (dirname out_path) members p with
      | none => exact absurd hl hlw
      | some b => rfl

/-- Closed instance of C1: a 404 response leaves the file system untouched and
returns `False`; a 200 response deletes the temporary zip file. -/
theorem claim_C1_witness :
    download_srtm_aws 28 85 404 [7] [("N28E085.hgt", [1, 2])] "N28E085.hgt" FS.empty =
      (false, FS.empty,
       ["Trying direct SRTM download: " ++ srtm_url 28 85,
        "Direct download failed."]) ∧
    (download_srtm_aws 28 85 200 [7] [("N28E085.hgt", [1, 2])] "N28E085.hgt"
          FS.empty).2.1 ("N28E085.hgt" ++ ".zip") = none :=
  ⟨(claim_C1 28 85 404 [7] [("N28E085.hgt", [1, 2])] "N28E085.hgt" FS.empty).1
      (by decide),
   ((claim_C1 28 85 200 [7] [("N28E085.hgt", [1, 2])] "N28E085.hgt" FS.empty).2
      rfl).2.1⟩

/-- C10: a `True` return from `download_srtm_aws` does not guarantee a file at
`out_path`.  On a 200 response the call returns `True` unconditionally, and
(for the script's directory-free tile paths, with no pre-existing file) a file
exists at `out_path` afterwards exactly when some archive member is named
`out_path`. -/
theorem claim_C10 (lat lon : Int) (body : List Nat)
    (members : List (String × List Nat)) (fs : FS) (out_path : String)
    (hdir : dirname out_path = "") (hout : fs out_path = none) :
    (download_srtm_aws lat lon 200 body members out_path fs).1 = true ∧
    (((download_srtm_aws lat lon 200 body members out_path fs).2.1 out_path).isSome ↔
      ∃ m ∈ members, m.1 = out_path) := by
  have hzip : out_path ≠ out_path ++ ".zip" := by
    intro h
    have hlen := congrArg String.length h
    have h4 : (".zip" : String).length = 4 := rfl
    simp [String.length_append, h4] at hlen
  rw [download_srtm_aws_200]
  refine ⟨rfl, ?_⟩
  simp only [FS.remove, if_neg hzip]
  rw [extractAll_apply]
  have hfs1 : (fs.write (out_path ++ ".zip") (chunks1024 body).flatten) out_path = none := by
    simp [FS.write, hzip, hout]
  rw [hfs1, Option.or_none, hdir, Option.isSome_iff_ne_none, ne_eq,
    lastWrite_eq_none_iff]
  push_neg
  simp [joinPath_empty]

/-- Closed instance of C10: the archive holds a single member whose name is
not the destination path, the call still returns `True`, and no file appears
at the destination path. -/
theorem claim_C10_witness :
    (download_srtm_aws 28 85 200 [7] [("README.txt", [1])] "N28E085.hgt"
        FS.empty).1 = true ∧
    (((download_srtm_aws 28 85 200 [7] [("README.txt", [1])] "N28E085.hgt"
          FS.empty).2.1 "N28E085.hgt").isSome ↔
      ∃ m ∈ [("README.txt", ([1] : List Nat))], m.1 = "N28E085.hgt") :=
  claim_C10 28 85 [7] [("README.txt", [1])] FS.empty "N28E085.hgt" (by decide) rfl

/-- The API key literal embedded in the script. -/
def api_key : String := "d4339698fa9c0fc3fbdfaef059ebb1c3"

/-- The fallback URL built by `download_opentopo`, concatenated exactly as in
the source (note: no separator between the output-format parameter and the
`apikey` fragment).  The bound arguments are the Python decimal renderings of
the float bounds. -/
def opentopo_url (south north west east apikey : String) : String :=
  "https://portal.opentopography.org/API/globaldem?" ++
    "demtype=SRTMGL1&" ++
    ("south=" ++ south ++ "&north=" ++ north ++ "&west=" ++ west ++
      "&east=" ++ east ++ "&") ++
    "outputFormat=GTiff" ++
    ("apikey=" ++ apikey)

/-- Embedding of the transfer part of `download_opentopo(bounds, out_path,
api_key)`: a non-200 status raises `RuntimeError` before the destination file
is opened; a 200 status streams the body (1024-byte chunks, concatenated in
order) to `out_path` and returns `True`. -/
def download_opentopo (status : Nat) (body : List Nat) (out_path : String)
    (fs : FS) : Except String Bool × FS :=
  if status ≠ 200 then
    (Except.error "OpenTopography request failed.", fs)
  else
    (Except.ok true, fs.write out_path (chunks1024 body).flatten)

/-- C6: on a non-200 response `download_opentopo` raises (models
`RuntimeError`) and the file system is untouched — no partial write to the
destination; on a 200 response the destination file holds exactly the
response body (the chunks concatenated in order) and every other path is
unchanged. -/
theorem claim_C6 (status : Nat) (body : List Nat) (out_path : String) (fs : FS) :
    (status ≠ 200 →
      download_opentopo status body out_path fs =
        (Except.error "OpenTopography request failed.", fs)) ∧
    (status = 200 →
      (download_opentopo status body out_path fs).1 = Except.ok true ∧
      (download_opentopo status body out_path fs).2 out_path = some body ∧
      (∀ p, p ≠ out_path → (download_opentopo status body out_path fs).2 p = fs p)) := by
  constructor
  · intro h
    simp [download_opentopo, h]
  · intro h
    subst h
    refine ⟨by simp [download_opentopo], ?_, ?_⟩
    · simp [download_opentopo, FS.write, chunks1024_flatten]
    · intro p hp
      simp [download_opentopo, FS.write, hp]

/-- Closed instance of C6: a 500 response raises with no write; a 200 response
writes the body verbatim to the destination. -/
theorem claim_C6_witness :
    download_opentopo 500 [1, 2] "langtang_srtm.tif" FS.empty =
      (Except.error "OpenTopography request failed.", FS.empty) ∧
    (download_opentopo 200 [1, 2] "langtang_srtm.tif" FS.empty).2
        "langtang_srtm.tif" = some [1, 2] :=
  ⟨(claim_C6 500 [1, 2] "langtang_srtm.tif" FS.empty).1 (by decide),
   ((claim_C6 200 [1, 2] "langtang_srtm.tif" FS.empty).2 rfl).2.1⟩

/-- C7: the fallback URL is exactly the claimed string — the query string
omits the separator before `apikey`, yielding `...outputFormat=GTiffapikey=...`
— and for the script's fixed bounding box (Python renders the floats
`28.15, 28.60, 85.25, 85.90` as `28.15`, `28.6`, `85.25`, `85.9`) the URL has
`south=28.15&north=28.6&west=85.25&east=85.9`. -/
theorem claim_C7 :
    (∀ south north west east apikey : String,
      opentopo_url south north west east apikey =
        "https://portal.opentopography.org/API/globaldem?demtype=SRTMGL1&south=" ++
          south ++ "&north=" ++ north ++ "&west=" ++ west ++ "&east=" ++ east ++
          "&outputFormat=GTiffapikey=" ++ apikey) ∧
    opentopo_url "28.15" "28.6" "85.25" "85.9" api_key =
      "https://portal.opentopography.org/API/globaldem?demtype=SRTMGL1&south=28.15&north=28.6&west=85.25&east=85.9&outputFormat=GTiffapikey=d4339698fa9c0fc3fbdfaef059ebb1c3" := by
  constructor
  · intro s n w e k
    simp only [opentopo_url, String.append_assoc]
    rfl
  · rfl

/-- One HTTP response as the direct fetcher observes it: status code, body,
and the archive members that `zipfile` parses out of the body (used only on
the success path). -/
structure HttpResp where
  status : Nat
  body : List Nat
  members : List (String × List Nat)

/-- The latitude grid `range(28, 30)` of the main download loop. -/
def latRange : List Int := [28, 29]

/-- The longitude grid `range(85, 87)` of the main download loop. -/
def lonRange : List Int := [85, 86]

/-- Embedding of the module-level download loop: for every latitude and
longitude of the fixed grid, in order, call `download_srtm_aws` for the tile
path `tile_name(lat, lon) + ".hgt"`, record the attempt, and or the returned
flag into the overall-success flag (the loop body has no break).  The
environment `env` gives the HTTP response each attempt receives.  Returns the
attempted coordinate pairs in order, the overall-success flag, and the final
file system. -/
def downloadStage (env : Int → Int → HttpResp) (fs0 : FS) :
    List (Int × Int) × Bool × FS :=
  latRange.foldl
    (fun acc lat =>
      lonRange.foldl
        (fun acc2 lon =>
          let r := download_srtm_aws lat lon (env lat lon).status (env lat lon).body
            (env lat lon).members (tile_name lat lon ++ ".hgt") acc2.2.2
          (acc2.1 ++ [(lat, lon)], acc2.2.1 || r.1, r.2.1))
        acc)
    ([], false, fs0)

/-- Embedding of the branch `if not success: download_opentopo(...)`: the
fallback fetcher runs exactly when the overall-success flag is false. -/
def fallbackInvoked (env : Int → Int → HttpResp) (fs0 : FS) : Bool :=
  !(downloadStage env fs0).2.1

theorem download_srtm_aws_fst (lat lon : Int) (status : Nat) (body : List Nat)
    (members : List (String × List Nat)) (out_path : String) (fs : FS) :
    (download_srtm_aws lat lon status body members out_path fs).1 =
      decide (status = 200) := by
  by_cases h : status = 200
  · subst h
    rw [download_srtm_aws_200]
    simp
  · simp [download_srtm_aws, h]

/-- C2: the main loop attempts `download_srtm_aws` for all four coordinate
pairs (28,85), (28,86), (29,85), (29,86) in order, with no early exit after a
success; the overall-success flag is true iff at least one attempt returned
`True` (equivalently, received status 200); and `download_opentopo` is invoked
iff that flag is false. -/
theorem claim_C2 (env : Int → Int → HttpResp) (fs0 : FS) :
    (downloadStage env fs0).1 = [(28, 85), (28, 86), (29, 85), (29, 86)] ∧
    ((downloadStage env fs0).2.1 = true ↔
      ((env 28 85).status = 200 ∨ (env 28 86).status = 200 ∨
       (env 29 85).status = 200 ∨ (env 29 86).status = 200)) ∧
    (∀ (lat lon : Int) (fs : FS),
      ((download_srtm_aws lat lon (env lat lon).status (env lat lon).body
          (env lat lon).members (tile_name lat lon ++ ".hgt") fs).1 = true ↔
        (env lat lon).status = 200)) ∧
    (fallbackInvoked env fs0 = true ↔ (downloadStage env fs0).2.1 = false) := by
  refine ⟨?_, ?_, ?_, ?_⟩
  · simp [downloadStage, latRange, lonRange]
  · simp [downloadStage, latRange, lonRange, download_srtm_aws_fst,
      Bool.or_eq_true, decide_eq_true_eq, or_assoc]
  · intro lat lon fs
    rw [download_srtm_aws_fst]
    simp
  · simp [fallbackInvoked]

/-- Inner converter loop over the longitudes of one latitude row: `break`s on
(returns) the first `lon` whose tile file exists.  `ex lat lon` models
`os.path.exists(tile_name(lat, lon) + ".hgt")`. -/
def lonScan (ex : Int → Int → Bool) (lat : Int) : List Int → Option Int
  | [] => none
  | lon :: rest => if ex lat lon then some lon else lonScan ex lat rest

/-- Outer converter loop.  The inner `break` fires on the first existing tile
of the current latitude row; the outer loop body then ends with
`if success: break`, and this branch only runs when `success` is `True`, so
the outer loop stops after its first latitude whether or not a tile was
found — the remaining latitudes are never scanned. -/
def converterScan (ex : Int → Int → Bool) : List Int → Option (Int × Int)
  | [] => none
  | lat :: _ =>
      match lonScan ex lat lonRange with
      | some lon => some (lat, lon)
      | none => none

/-- The coordinate pair of the tile the converter stage converts (if any),
given which tile files exist on disk. -/
def converterStage (ex : Int → Int → Bool) : Option (Int × Int) :=
  converterScan ex latRange

/-- The Converter as the claim describes it: the first tile file that exists
on disk, over the whole 2-by-2 grid in scan order. -/
def specFirstExisting (ex : Int → Int → Bool) : Option (Int × Int) :=
  ([(28, 85), (28, 86), (29, 85), (29, 86)] : List (Int × Int)).find?
    (fun p => ex p.1 p.2)

/-- Disk state in which exactly the tile N29E085 exists. -/
def exOnly2985 : Int → Int → Bool := fun lat lon => lat == 29 && lon == 85

/-- C3 as stated fails: when the only existing tile file is N29E085 (the
first-existing tile of the grid scan), the converter converts nothing at all,
because the outer loop's `if success: break` fires after latitude 28. -/
theorem claim_C3_counterexample :
    exOnly2985 29 85 = true ∧
    specFirstExisting exOnly2985 = some (29, 85) ∧
    converterStage exOnly2985 = none := by decide

/-- C3 (amended): the converter re-scans only latitude 28 — the outer loop
breaks after its first latitude because the overall-success flag is true —
converting the first existing tile among (28,85), (28,86) in that order and
stopping; if neither latitude-28 tile file exists, no tile is converted even
when latitude-29 tiles exist.  Whenever it does convert, the converted tile
is the first-existing tile of the full grid scan. -/
theorem claim_C3 (ex : Int → Int → Bool) :
    converterStage ex =
      (if ex 28 85 then some ((28 : Int), (85 : Int))
       else if ex 28 86 then some ((28 : Int), (86 : Int)) else none) ∧
    (∀ lat lon : Int, converterStage ex = some (lat, lon) → lat = 28) ∧
    (converterStage ex ≠ none → converterStage ex = specFirstExisting ex) := by
  by_cases h1 : ex 28 85 <;> by_cases h2 : ex 28 86 <;>
    simp [converterStage, converterScan, lonScan, latRange, lonRange,
      specFirstExisting, h1, h2]

/-- Disk state in which exactly the tile N28E086 exists. -/
def exW : Int → Int → Bool := fun lat lon => lat == 28 && lon == 86

/-- Closed instance of the amended C3: with only N28E086 on disk, the
converter converts exactly the first-existing tile of the grid scan. -/
theorem claim_C3_witness : converterStage exW = specFirstExisting exW :=
  (claim_C3 exW).2.2 (by decide)

/-- Embedding of `np.fromfile(path, np.dtype(">i2"))`: the file's bytes are
read as big-endian signed 16-bit integers, two bytes per sample, most
significant byte first, two's complement; numpy reads `size // itemsize`
complete items, so a trailing lone byte is dropped silently. -/
def decodeBE16 : List Nat → List Int
  | hi :: lo :: rest =>
      (if hi * 256 + lo < 32768 then ((hi * 256 + lo : Nat) : Int)
       else ((hi * 256 + lo : Nat) : Int) - 65536) :: decodeBE16 rest
  | _ => []

/-- Embedding of `.reshape(3601, 3601)`: `none` models the ValueError raised
when the flat array does not hold exactly 3601 * 3601 samples; otherwise the
grid whose row `i`, column `j` entry is flat element `i * 3601 + j`. -/
def reshape3601 (l : List Int) : Option (List (List Int)) :=
  if l.length = 3601 * 3601 then
    some ((List.range 3601).map fun i =>
      (List.range 3601).map fun j => l.getD (i * 3601 + j) 0)
  else none

/-- The converter's read-and-reshape step applied to a tile file's bytes. -/
def readTile (bytes : List Nat) : Option (List (List Int)) :=
  reshape3601 (decodeBE16 bytes)

/-- A written raster file, with the creation parameters the script passes to
`rasterio.open(..., "w", ...)`: the affine transform is
`rasterio.transform.from_origin(lon, lat + 1, 1/3600, 1/3600)`, recorded as
its origin and pixel sizes. -/
structure Raster where
  driver : String
  height : Nat
  width : Nat
  count : Nat
  dtype : String
  crs : String
  originLon : Rat
  originLat : Rat
  pixelWidth : Rat
  pixelHeight : Rat
  band1 : List (List Int)

/-- Embedding of the converter's per-tile body: read and reshape the raw
tile, then write a single-band GTiff raster with the computed transform,
EPSG:4326, int16 samples, and the grid's shape. -/
def convertTile (lat lon : Int) (bytes : List Nat) : Option Raster :=
  match readTile bytes with
  | none => none
  | some data =>
      some { driver := "GTiff", height := data.length,
             width := (data.headD []).length,
             count := 1, dtype := "int16", crs := "EPSG:4326",
             originLon := (lon : Rat), originLat := (lat : Rat) + 1,
             pixelWidth := 1 / 3600, pixelHeight := 1 / 3600, band1 := data }

/-- Embedding of `src.read(b)` on a written raster: the stored band when `b`
is a valid band index. -/
def rasterRead (r : Raster) (band : Nat) : Option (List (List Int)) :=
  if 1 ≤ band ∧ band ≤ r.count then some r.band1 else none

/-- The raw bytes of a 3601 * 3601 tile of constant value 1000
(big-endian: high byte 3, low byte 232). -/
def constTile1000 : List Nat := (List.replicate (3601 * 3601) [3, 232]).flatten

theorem decodeBE16_length : ∀ l : List Nat, (decodeBE16 l).length = l.length / 2
  | [] => by simp [decodeBE16]
  | [x] => by simp [decodeBE16]
  | hi :: lo :: rest => by
      simp only [decodeBE16, List.length_cons, decodeBE16_length rest]
      omega

theorem flatten_replicate_length {α : Type} (n : Nat) (l : List α) :
    ((List.replicate n l).flatten).length = n * l.length := by
  induction n with
  | zero => simp
  | succ k ih =>
      rw [List.replicate_succ, List.flatten_cons, List.length_append, ih,
        Nat.succ_mul]
      exact Nat.add_comm _ _

theorem constTile1000_length : constTile1000.length = 2 * (3601 * 3601) := by
  rw [constTile1000, flatten_replicate_length]
  norm_num [Nat.mul_comm]

theorem decodeBE16_const (suffix : List Nat) (hsuf : suffix.length ≤ 1) :
    ∀ n : Nat, decodeBE16 ((List.replicate n [3, 232]).flatten ++ suffix) =
      List.replicate n (1000 : Int)
  | 0 => by
      cases suffix with
      | nil => simp [decodeBE16]
      | cons a rest =>
          cases rest with
          | nil => simp [decodeBE16]
          | cons b r2 => simp at hsuf
  | n + 1 => by
      simp only [List.replicate_succ, List.flatten_cons, List.append_assoc,
        List.cons_append, List.nil_append]
      simp only [decodeBE16, decodeBE16_const suffix hsuf n]
      norm_num

theorem getD_replicate_of_lt {n k : Nat} (v : Int) (h : k < n) :
    (List.replicate n v).getD k 0 = v := by
  simp [List.getD, List.getElem?_replicate, h]

theorem grid_replicate (rows cols N : Nat) (v : Int) (hN : rows * cols ≤ N) :
    ((List.range rows).map fun i =>
      (List.range cols).map fun j => (List.replicate N v).getD (i * cols + j) 0) =
      List.replicate rows (List.replicate cols v) := by
  apply List.eq_replicate_iff.mpr
  constructor
  · rw [List.length_map, List.length_range]
  · intro row hrow
    obtain ⟨i, hi, rfl⟩ := List.mem_map.mp hrow
    have hi2 : i < rows := List.mem_range.mp hi
    apply List.eq_replicate_iff.mpr
    constructor
    · rw [List.length_map, List.length_range]
    · intro x hx
      obtain ⟨j, hj, rfl⟩ := List.mem_map.mp hx
      have hj2 : j < cols := List.mem_range.mp hj
      apply getD_replicate_of_lt
      calc i * cols + j < i * cols + cols := by omega
        _ = (i + 1) * cols := by ring
        _ ≤ rows * cols := Nat.mul_le_mul_right cols hi2
        _ ≤ N := hN

theorem reshape3601_replicate :
    reshape3601 (List.replicate (3601 * 3601) (1000 : Int)) =
      some (List.replicate 3601 (List.replicate 3601 (1000 : Int))) := by
  rw [reshape3601, if_pos (List.length_replicate (3601 * 3601) (1000 : Int)),
    grid_replicate 3601 3601 (3601 * 3601) 1000 (Nat.le_refl _)]

theorem convertTile_eq (lat lon : Int) (bytes : List Nat) (data : List (List Int))
    (h : readTile bytes = some data) :
    convertTile lat lon bytes =
      some { driver := "GTiff", height := data.length,
             width := (data.headD []).length,
             count := 1, dtype := "int16", crs := "EPSG:4326",
             originLon := (lon : Rat), originLat := (lat : Rat) + 1,
             pixelWidth := 1 / 3600, pixelHeight := 1 / 3600, band1 := data } := by
  unfold convertTile
  rw [h]

theorem length_grid (l : List Int) :
    ((List.range 3601).map fun i =>
      (List.range 3601).map fun j => l.getD (i * 3601 + j) 0).length = 3601 := by
  rw [List.length_map, List.length_range]

theorem width_grid (l : List Int) :
    (((List.range 3601).map fun i =>
      (List.range 3601).map fun j => l.getD (i * 3601 + j) 0).headD []).length = 3601 := by
  cases hd : (List.range 3601).map
      (fun i => (List.range 3601).map fun j => l.getD (i * 3601 + j) 0) with
  | nil =>
      have hlen := congrArg List.length hd
      rw [List.length_map, List.length_range, List.length_nil] at hlen
      exact absurd hlen (by omega)
  | cons a t =>
      have ha : a ∈ (List.range 3601).map
          (fun i => (List.range 3601).map fun j => l.getD (i * 3601 + j) 0) := by
        rw [hd]
        exact List.mem_cons_self a t
      obtain ⟨i, hi, hai⟩ := List.mem_map.mp ha
      rw [List.headD_cons, ← hai, List.length_map, List.length_range]

set_option maxRecDepth 8000 in
/-- C4: for every in-size tile the converter writes a raster with transform
origin `(lon, lat + 1)`, pixel sizes `(1/3600, 1/3600)`, CRS EPSG:4326, GTiff
driver, one int16 band, and height and width 3601; and converting the
3601 * 3601 constant-1000 tile yields a raster whose band-1 read-back is
exactly that constant grid. -/
theorem claim_C4 :
    (∀ (lat lon : Int) (bytes : List Nat), bytes.length = 2 * (3601 * 3601) →
      ∃ r : Raster, convertTile lat lon bytes = some r ∧
        r.originLon = (lon : Rat) ∧ r.originLat = (lat : Rat) + 1 ∧
        r.pixelWidth = 1 / 3600 ∧ r.pixelHeight = 1 / 3600 ∧
        r.crs = "EPSG:4326" ∧ r.count = 1 ∧ r.dtype = "int16" ∧
        r.driver = "GTiff" ∧ r.height = 3601 ∧ r.width = 3601) ∧
    (∃ r : Raster, convertTile 28 85 constTile1000 = some r ∧
      rasterRead r 1 = some (List.replicate 3601 (List.replicate 3601 (1000 : Int))) ∧
      r.originLon = 85 ∧ r.originLat = 29) := by
  constructor
  · intro lat lon bytes hlen
    have hdlen : (decodeBE16 bytes).length = 3601 * 3601 := by
      rw [decodeBE16_length bytes, hlen]
    have hread : readTile bytes = some ((List.range 3601).map fun i =>
        (List.range 3601).map fun j => (decodeBE16 bytes).getD (i * 3601 + j) 0) := by
      rw [readTile, reshape3601, if_pos hdlen]
    refine ⟨_, convertTile_eq lat lon bytes _ hread,
      rfl, rfl, rfl, rfl, rfl, rfl, rfl, rfl, ?_, ?_⟩
    · exact length_grid (decodeBE16 bytes)
    · exact width_grid (decodeBE16 bytes)
  · have hdec : decodeBE16 constTile1000 = List.replicate (3601 * 3601) (1000 : Int) := by
      have h := decodeBE16_const [] (by simp) (3601 * 3601)
      rw [List.append_nil] at h
      rw [constTile1000]
      exact h
    have hread : readTile constTile1000 =
        some (List.replicate 3601 (List.replicate 3601 (1000 : Int))) := by
      rw [readTile, hdec, reshape3601_replicate]
    refine ⟨_, convertTile_eq 28 85 constTile1000 _ hread, ?_, ?_, ?_⟩
    · rfl
    · norm_num
    · norm_num

theorem claim_C4_witness :
    ∃ r : Raster, convertTile 28 85 constTile1000 = some r ∧
      r.originLon = ((85 : Int) : Rat) ∧ r.originLat = ((28 : Int) : Rat) + 1 ∧
      r.pixelWidth = 1 / 3600 ∧ r.pixelHeight = 1 / 3600 ∧
      r.crs = "EPSG:4326" ∧ r.count = 1 ∧ r.dtype = "int16" ∧
      r.driver = "GTiff" ∧ r.height = 3601 ∧ r.width = 3601 :=
  claim_C4.1 28 85 constTile1000 constTile1000_length

/-- C5 as stated fails: a tile file of byte length 2 * 3601 * 3601 + 1 does
not correspond exactly to a 3601 * 3601 grid of 16-bit samples, yet the
read-and-reshape step succeeds, because `np.fromfile` silently drops the
trailing lone byte. -/
theorem claim_C5_counterexample :
    (constTile1000 ++ [7]).length ≠ 2 * (3601 * 3601) ∧
    readTile (constTile1000 ++ [7]) ≠ none := by
  constructor
  · rw [List.length_append, constTile1000_length, List.length_singleton]
    omega
  · have hdec : decodeBE16 (constTile1000 ++ [7]) =
        List.replicate (3601 * 3601) (1000 : Int) := by
      rw [constTile1000]
      exact decodeBE16_const [7] (by rw [List.length_singleton]) (3601 * 3601)
    rw [readTile, hdec, reshape3601_replicate]
    exact Option.some_ne_none _

/-- C5 (amended): the read-and-reshape step fails exactly when the number of
complete 16-bit samples in the file — its byte length integer-divided by 2 —
differs from 3601 * 3601; a trailing lone byte is dropped, not an error. -/
theorem claim_C5 (bytes : List Nat) :
    readTile bytes = none ↔ bytes.length / 2 ≠ 3601 * 3601 := by
  have hlen : (decodeBE16 bytes).length = bytes.length / 2 := decodeBE16_length bytes
  by_cases h : (decodeBE16 bytes).length = 3601 * 3601
  · rw [readTile, reshape3601, if_pos h]
    have hq : bytes.length / 2 = 3601 * 3601 := by rw [← hlen]; exact h
    constructor
    · intro hsome
      exact absurd hsome (Option.some_ne_none _)
    · intro hne
      exact absurd hq hne
  · rw [readTile, reshape3601, if_neg h]
    have hq : bytes.length / 2 ≠ 3601 * 3601 := by rw [← hlen]; exact h
    constructor
    · intro _
      exact hq
    · intro _
      rfl

/-- The fixed raster output path of the script. -/
def output_tif : String := "langtang_srtm.tif"

/-- The attribute surface of `matplotlib.pyplot` relevant to the render
stage: the library provides `figure`, `imshow`, `colorbar`, `title`, `axis`,
`show` and `savefig` — writing a figure to a file is `savefig`; there is no
attribute named `save`. -/
def pyplotAttrs : List String :=
  ["figure", "imshow", "colorbar", "title", "axis", "show", "savefig"]

/-- One `plt.<attr>(arg)` call: the looked-up attribute name and its
distinguishing argument. -/
structure PlotCall where
  attr : String
  arg : String

/-- The module-level render stage's pyplot calls in source order:
`figure(figsize=(10, 8))`, `imshow(dem, cmap="terrain")`,
`colorbar(label="Elevation (meters)")`, `title("DEM – Langtang National
Park")`, `axis("off")`, and finally `save("langtang_heightmap.png")`; the
`plt.show()` line is commented out in the source. -/
def renderCalls : List PlotCall :=
  [{ attr := "figure", arg := "(10, 8)" },
   { attr := "imshow", arg := "terrain" },
   { attr := "colorbar", arg := "Elevation (meters)" },
   { attr := "title", arg := "DEM – Langtang National Park" },
   { attr := "axis", arg := "off" },
   { attr := "save", arg := "langtang_heightmap.png" }]

/-- Runs pyplot calls in order under Python attribute lookup: a name missing
from the module raises `AttributeError` and nothing further runs; `savefig`
writes the figure to its argument path (image bytes abstracted as `[]`);
the other calls only mutate the in-memory figure. -/
def runPyplot (fs : FS) : List PlotCall → Except String FS
  | [] => Except.ok fs
  | c :: rest =>
      if c.attr ∈ pyplotAttrs then
        if c.attr = "savefig" then runPyplot (fs.write c.arg []) rest
        else runPyplot fs rest
      else
        Except.error ("AttributeError: module matplotlib.pyplot has no attribute "
          ++ c.attr)

/-- Embedding of the final load-and-plot stage: `rasterio.open(output_tif)`
raises when the raster file does not exist; otherwise the render calls run. -/
def loadAndRender (fs : FS) : Except String FS :=
  match fs output_tif with
  | none => Except.error "rasterio.open failed: no such file langtang_srtm.tif"
  | some _ => runPyplot fs renderCalls

/-- C8: the claim matches the script's clear intent, but the code's last line
is `plt.save(...)`, and `matplotlib.pyplot` has no attribute `save` (the
correct name is `savefig`): whenever a raster file exists at the fixed output
path, the render stage raises `AttributeError` instead of writing
`langtang_heightmap.png` — no image file is ever produced.  The earlier calls
(band-1 read, terrain color map, labeled color bar, axis removal) are as
claimed. -/
theorem claim_C8 (fs : FS) (h : fs output_tif ≠ none) :
    loadAndRender fs =
      Except.error "AttributeError: module matplotlib.pyplot has no attribute save" ∧
    renderCalls.map PlotCall.attr =
      ["figure", "imshow", "colorbar", "title", "axis", "save"] ∧
    (renderCalls.map PlotCall.arg).take 5 =
      ["(10, 8)", "terrain", "Elevation (meters)",
       "DEM – Langtang National Park", "off"] ∧
    "save" ∉ pyplotAttrs ∧ "savefig" ∈ pyplotAttrs := by
  refine ⟨?_, by decide, by decide, by decide, by decide⟩
  obtain ⟨b, hb⟩ : ∃ b, fs output_tif = some b := by
    cases hfs : fs output_tif with
    | none => exact absurd hfs h
    | some b => exact ⟨b, rfl⟩
  unfold loadAndRender
  rw [hb]
  rfl

/-- A file system holding only the raster file. -/
def fsWithRaster : FS := FS.empty.write output_tif []

/-- Closed instance of C8: with the raster file present, the render stage
raises `AttributeError` on `plt.save`. -/
theorem claim_C8_witness :
    loadAndRender fsWithRaster =
      Except.error "AttributeError: module matplotlib.pyplot has no attribute save" ∧
    renderCalls.map PlotCall.attr =
      ["figure", "imshow", "colorbar", "title", "axis", "save"] ∧
    (renderCalls.map PlotCall.arg).take 5 =
      ["(10, 8)", "terrain", "Elevation (meters)",
       "DEM – Langtang National Park", "off"] ∧
    "save" ∉ pyplotAttrs ∧ "savefig" ∈ pyplotAttrs :=
  claim_C8 fsWithRaster (by decide)
